import Mathlib

/-!
Shallow embedding of the Tailscale status monitor worker.

The embedding follows the JavaScript sources:
  src/index.js           : scheduled reconciliation loop and fetch handler
  src/tailscaleService.js : liveness classification of devices
  src/telegramNotifier.js : notification delivery
Timestamps are epoch milliseconds modelled as Nat.  JavaScript real-number
division is modelled with the rationals.  Math.round is floor of x + 1/2.
-/

namespace TailscaleMonitor

/-- Persisted state tag of a node: the strings ONLINE and OFFLINE of the
source.  A record that was never written has state null, modelled with
Option below. -/
inductive DevState
  | ONLINE
  | OFFLINE
deriving DecidableEq

/-- Persisted record per node, from the StoredNodeState typedef of index.js:
state (nullable), alertTs and firstDownTs in epoch milliseconds, 0 meaning
absent. -/
structure StoredNodeState where
  state : Option DevState
  alertTs : Nat
  firstDownTs : Nat
deriving DecidableEq

/-- Default used when the KV store holds no record for the node, from
index.js line 149. -/
def defaultStateData : StoredNodeState :=
  { state := none, alertTs := 0, firstDownTs := 0 }

/-- Math.round of JavaScript: floor of the argument plus one half. -/
def jsRound (q : ℚ) : ℤ := ⌊q + 1 / 2⌋

/-- Kind of Telegram message the scheduled handler sends, one constructor
per sendTelegramNotification call site in index.js: the initial OFFLINE
alert, the STILL OFFLINE reminder with its rounded outage duration, the
ONLINE recovery message with its rounded outage duration, and the worker
error message of the catch handler. -/
inductive AlertMessage
  | offlineAlert
  | stillOfflineReminder (totalDownMinutes : ℤ)
  | backOnline (outageDurationMinutes : ℤ)
  | workerError
deriving DecidableEq

/-- Outcome of the per-device decision in the scheduled handler, index.js
lines 158 to 261: which message was sent if any, the value of newKVData,
and the needsKVWrite flag. -/
structure ReconcileResult where
  notification : Option AlertMessage
  newKVData : StoredNodeState
  needsKVWrite : Bool
deriving DecidableEq

/-- Reminder test of index.js lines 191 to 193: minutesSinceLastAlert is
the real-number quotient (now - alertTs) / (1000 * 60) and the reminder is
due when it is at least reminderIntervalMinutes. -/
def reminderDue (now alertTs reminderIntervalMinutes : Nat) : Bool :=
  decide (((now : ℚ) - (alertTs : ℚ)) / (1000 * 60) ≥ (reminderIntervalMinutes : ℚ))

/-- Per-device reconciliation decision, translated from index.js lines 158
to 261.  The firstDownTimestamp fallback uses the JavaScript truthiness of
firstDownTs, that is firstDownTs different from 0. -/
def reconcile (isOnline : Bool) (previousStateData : StoredNodeState)
    (now reminderIntervalMinutes : Nat) : ReconcileResult :=
  if isOnline = false then
    -- index.js lines 162 to 166
    let firstDownTimestamp :=
      if previousStateData.state = some DevState.OFFLINE ∧ previousStateData.firstDownTs ≠ 0
      then previousStateData.firstDownTs else now
    if previousStateData.state ≠ some DevState.OFFLINE then
      -- lines 169 to 188: state changed to OFFLINE, initial alert
      { notification := some AlertMessage.offlineAlert
        newKVData := { state := some DevState.OFFLINE, alertTs := now, firstDownTs := now }
        needsKVWrite := true }
    else if reminderDue now previousStateData.alertTs reminderIntervalMinutes then
      -- lines 193 to 211: reminder alert
      { notification := some (AlertMessage.stillOfflineReminder
          (jsRound (((now : ℚ) - (firstDownTimestamp : ℚ)) / (1000 * 60))))
        newKVData :=
          { state := some DevState.OFFLINE, alertTs := now, firstDownTs := firstDownTimestamp }
        needsKVWrite := true }
    else
      -- lines 212 to 216: interval not yet met, no write
      { notification := none, newKVData := previousStateData, needsKVWrite := false }
  else
    if previousStateData.state = some DevState.OFFLINE then
      -- lines 219 to 243: recovery
      let outageDurationMs : ℚ :=
        (now : ℚ) - (if previousStateData.firstDownTs ≠ 0
                     then (previousStateData.firstDownTs : ℚ) else (now : ℚ))
      { notification := some (AlertMessage.backOnline (jsRound (outageDurationMs / (1000 * 60))))
        newKVData := { state := some DevState.ONLINE, alertTs := 0, firstDownTs := 0 }
        needsKVWrite := true }
    else if previousStateData.state = none then
      -- lines 249 to 253: new node first seen as ONLINE
      { notification := none
        newKVData := { state := some DevState.ONLINE, alertTs := 0, firstDownTs := 0 }
        needsKVWrite := true }
    else
      -- lines 244 to 254: already online, no write
      { notification := none, newKVData := previousStateData, needsKVWrite := false }

/-- Result object of sendTelegramNotification in telegramNotifier.js: a
success flag and an optional error description. -/
structure NotifResult where
  success : Bool
  error : Option String
deriving DecidableEq

/-- Shape of the JSON body the Telegram API returns: the ok flag and the
description and error code fields used in the error message.  An empty
description models a falsy description in JavaScript. -/
structure TelegramResponse where
  ok : Bool
  description : String
  errorCode : ℤ
deriving DecidableEq

/-- Outcome of the network interaction inside sendTelegramNotification:
either the fetch or json call rejects with an error message, or a response
body is obtained. -/
inductive TgFetchOutcome
  | rejected (msg : String)
  | response (r : TelegramResponse)
deriving DecidableEq

/-- Translation of sendTelegramNotification from telegramNotifier.js.  A
missing bot token or chat id is modelled as the empty string, the only
falsy string.  Every path returns a NotifResult: the try block catches the
rejected case, so the function never throws past its boundary. -/
def sendTelegramNotification (messageText botToken chatId : String)
    (net : TgFetchOutcome) : NotifResult :=
  if botToken = "" ∨ chatId = "" then
    { success := false, error := some "Telegram secrets not provided to function" }
  else
    match messageText, net with
    | _, TgFetchOutcome.rejected m =>
        { success := false, error := some ("Workspace Error: " ++ m) }
    | _, TgFetchOutcome.response r =>
        if r.ok = false then
          { success := false
            error := some ("Telegram API Error: "
              ++ (if r.description ≠ "" then r.description else toString r.errorCode)) }
        else
          { success := true, error := none }

/-- Device descriptor the scheduled handler consumes, from the
TailscaleDevice typedef of index.js. -/
structure TailscaleDevice where
  id : String
  name : String
  tags : List String
  isOnline : Bool
deriving DecidableEq

/-- Short node name: the part of the name before the first dot, from
node.name.split of index.js line 142. -/
def shortNodeName (d : TailscaleDevice) : String :=
  String.mk (d.name.toList.takeWhile (fun c => c ≠ '.'))

/-- KV key for a node, index.js line 143. -/
def nodeKvKey (d : TailscaleDevice) : String :=
  "node:" ++ d.id ++ ":" ++ shortNodeName d

/-- Tag test of index.js lines 114 to 116: some tag of the device is one of
the configured monitor tags. -/
def deviceHasRequiredTag (monitorTags : List String) (d : TailscaleDevice) : Bool :=
  d.tags.any (fun deviceTag => monitorTags.contains deviceTag)

/-- Fleet filter of index.js lines 113 to 135: with a nonempty configured
tag list the device is skipped unless it carries a required tag; with an
empty list every device is processed. -/
def passesTagFilter (monitorTags : List String) (d : TailscaleDevice) : Bool :=
  if monitorTags.length > 0 then deviceHasRequiredTag monitorTags d else true

/-- Message text passed to the notifier for each alert kind.  The concrete
markdown of index.js is abstracted to a short label because no decision of
the worker depends on the text. -/
def messageFor : AlertMessage → String
  | AlertMessage.offlineAlert => "OFFLINE"
  | AlertMessage.stillOfflineReminder _ => "STILL OFFLINE"
  | AlertMessage.backOnline _ => "ONLINE"
  | AlertMessage.workerError => "Worker Error"

/-- Configuration slice of loadAppConfig the scheduled loop reads. -/
structure SchedConfig where
  monitorTags : List String
  reminderIntervalMinutes : Nat
  telegramBotToken : String
  telegramChatId : String
deriving DecidableEq

/-- Observable step of one scheduled cycle: a KV read of a key, an awaited
notification send with its delivery result, or a KV write of a record. -/
inductive CycleEvent
  | kvRead (key : String)
  | notifySent (n : AlertMessage) (delivered : NotifResult)
  | kvWrite (key : String) (value : StoredNodeState)
deriving DecidableEq

/-- Per-device event trace of the loop body, index.js lines 137 to 261,
once the KV read has succeeded with the parsed previous record (or none
when the key was absent). -/
def deviceEvents (config : SchedConfig) (deliver : AlertMessage → TgFetchOutcome)
    (now : Nat) (d : TailscaleDevice) (stored : Option StoredNodeState) : List CycleEvent :=
  let previousStateData := stored.getD defaultStateData
  let r := reconcile d.isOnline previousStateData now config.reminderIntervalMinutes
  CycleEvent.kvRead (nodeKvKey d) ::
    ((match r.notification with
      | some n => [CycleEvent.notifySent n
          (sendTelegramNotification (messageFor n) config.telegramBotToken
            config.telegramChatId (deliver n))]
      | none => []) ++
     (if r.needsKVWrite then [CycleEvent.kvWrite (nodeKvKey d) r.newKVData] else []))

/-- Scheduled device loop of index.js lines 112 to 262 together with the
catch handler of lines 264 to 276.  The KV read result is an Except: the
error case stands for a rejected get or a JSON.parse throw.  The loop body
has no local handler for it, so the rejection propagates to the single
catch of the promise chain, which sends one worker error notification and
ends the cycle: the remaining devices produce no events. -/
def runDeviceLoop (config : SchedConfig)
    (kv : String → Except String (Option StoredNodeState))
    (deliver : AlertMessage → TgFetchOutcome) (now : Nat) :
    List TailscaleDevice → List CycleEvent
  | [] => []
  | d :: rest =>
    if passesTagFilter config.monitorTags d then
      match kv (nodeKvKey d) with
      | Except.error _ =>
          [CycleEvent.kvRead (nodeKvKey d),
           CycleEvent.notifySent AlertMessage.workerError
             (sendTelegramNotification (messageFor AlertMessage.workerError)
               config.telegramBotToken config.telegramChatId
               (deliver AlertMessage.workerError))]
      | Except.ok stored =>
          deviceEvents config deliver now d stored
            ++ runDeviceLoop config kv deliver now rest
    else
      runDeviceLoop config kv deliver now rest

/-- KV writes contained in a cycle trace, in order. -/
def writesOf (events : List CycleEvent) : List (String × StoredNodeState) :=
  events.filterMap (fun e =>
    match e with
    | CycleEvent.kvWrite k v => some (k, v)
    | _ => none)

/-- Liveness classification of one device, from getTailscaleNodeDetails in
tailscaleService.js lines 85 to 117: the exact elapsed minutes drive the
comparison against the threshold and only the displayed value is rounded. -/
structure ClassifiedDevice where
  isOnline : Bool
  minutesSinceLastSeen : ℤ
deriving DecidableEq

/-- Exact elapsed minutes between the last seen time and now, both in epoch
milliseconds. -/
def minutesSinceContact (nowMs lastSeenMs : ℤ) : ℚ :=
  (((nowMs - lastSeenMs) : ℤ) : ℚ) / (1000 * 60)

/-- Classifier of tailscaleService.js: isOnline is the inclusive comparison
of the unrounded elapsed minutes against downThresholdMinutes, and the
reported minutesSinceLastSeen is Math.round of the elapsed minutes. -/
def classifyDevice (nowMs lastSeenMs : ℤ) (downThresholdMinutes : ℤ) : ClassifiedDevice :=
  let m := minutesSinceContact nowMs lastSeenMs
  { isOnline := decide (m ≤ (downThresholdMinutes : ℚ))
    minutesSinceLastSeen := jsRound m }

/-- Entry of the status listing the fetch handler builds for one KV key,
index.js lines 381 to 389.  The human readable timestamps are null when the
stored number is 0 and otherwise the ISO rendering of the number, which the
embedding keeps as the number itself. -/
structure StatusEntry where
  nodeId : String
  shortName : String
  state : Option DevState
  alertTs : Option Nat
  firstDownTs : Option Nat
deriving DecidableEq

/-- JSON body of a fetch handler response: the success flag, the optional
error string and the optional data listing. -/
structure ResponseBody where
  success : Bool
  error : Option String
  data : Option (List StatusEntry)
deriving DecidableEq

/-- HTTP response of the fetch handler: status code, body, content type and
the optional Allow header. -/
structure HttpResponse where
  status : Nat
  body : ResponseBody
  contentType : String
  allow : Option String
deriving DecidableEq

/-- Configuration slice of loadAppConfig the fetch handler reads.  An empty
access token models a falsy apiAccessTokenWorker. -/
structure FetchConfig where
  apiAccessTokenWorker : String
deriving DecidableEq

/-- Processing of one listed KV key, index.js lines 352 to 399: a missing
value is skipped, a JSON.parse throw is caught per entry and skipped, a key
that does not split into node, id and short name is skipped, and otherwise
a status entry is produced with 0 timestamps turned into null. -/
def statusEntryOfKey (key : String) (value : Option (Except String StoredNodeState)) :
    Option StatusEntry :=
  match value with
  | none => none
  | some (Except.error _) => none
  | some (Except.ok storedValue) =>
      let parts := key.splitOn ":"
      if parts.length = 3 ∧ parts.headD "" = "node" then
        some { nodeId := parts.getD 1 ""
               shortName := parts.getD 2 ""
               state := storedValue.state
               alertTs := if storedValue.alertTs = 0 then none else some storedValue.alertTs
               firstDownTs :=
                 if storedValue.firstDownTs = 0 then none else some storedValue.firstDownTs }
      else none

/-- Fetch handler of index.js lines 303 to 426.  Inputs: the request
method, the X-Auth-Token header if present, the result of loadAppConfig
(error for a configuration throw), and the KV store as its listed keys plus
a lookup returning none for a missing value and an inner error for an
unparsable one. -/
def fetchHandler (method : String) (xAuthToken : Option String)
    (configResult : Except String FetchConfig) (kvKeys : List String)
    (kvGet : String → Option (Except String StoredNodeState)) : HttpResponse :=
  if method ≠ "GET" then
    -- lines 304 to 315: rejected before configuration, auth and KV access
    { status := 405
      body := { success := false, error := some "Method Not Allowed", data := none }
      contentType := "application/json"
      allow := some "GET" }
  else
    match configResult with
    | Except.error msg =>
        -- lines 317 to 332
        { status := 500
          body := { success := false, error := some ("Worker not configured: " ++ msg)
                    data := none }
          contentType := "application/json"
          allow := none }
    | Except.ok config =>
        if config.apiAccessTokenWorker ≠ "" ∧ xAuthToken ≠ some config.apiAccessTokenWorker then
          -- lines 334 to 345
          { status := 401
            body := { success := false, error := some "Unauthorized", data := none }
            contentType := "application/json"
            allow := none }
        else
          -- lines 347 to 408
          { status := 200
            body := { success := true, error := none
                      data := some (kvKeys.filterMap (fun k => statusEntryOfKey k (kvGet k))) }
            contentType := "application/json"
            allow := none }

/-! Helper lemmas shared by the claim theorems. -/

/-- Characterisation of the reminder test: the real-number quotient form of
the source is equivalent to the product form over the rationals. -/
theorem reminderDue_eq_true_iff (now alertTs R : Nat) :
    reminderDue now alertTs R = true ↔
      (R : ℚ) * (1000 * 60) ≤ (now : ℚ) - (alertTs : ℚ) := by
  unfold reminderDue
  rw [decide_eq_true_eq, ge_iff_le, le_div_iff₀ (by norm_num)]

/-- With a positive reminder interval, a reminder is never due at the very
moment the last alert was sent. -/
theorem reminderDue_self_of_pos (now R : Nat) (hR : 0 < R) :
    reminderDue now now R = false := by
  have h1 : (1 : ℚ) ≤ (R : ℚ) := by exact_mod_cast hR
  rw [← Bool.not_eq_true, reminderDue_eq_true_iff]
  intro h
  nlinarith

/-- C2: a device observed offline whose prior state is not OFFLINE gets the
initial down alert, and the persisted record is OFFLINE with both
timestamps set to now. -/
theorem initial_down_alert (prev : StoredNodeState) (now R : Nat)
    (h : prev.state ≠ some DevState.OFFLINE) :
    reconcile false prev now R =
      { notification := some AlertMessage.offlineAlert
        newKVData := { state := some DevState.OFFLINE, alertTs := now, firstDownTs := now }
        needsKVWrite := true } := by
  simp [reconcile, h]

/-- Witness for C2 at the concrete prior with no stored record. -/
theorem initial_down_alert_witness :
    reconcile false defaultStateData 5 240 =
      { notification := some AlertMessage.offlineAlert
        newKVData := { state := some DevState.OFFLINE, alertTs := 5, firstDownTs := 5 }
        needsKVWrite := true } :=
  initial_down_alert defaultStateData 5 240 (by decide)

/-- C1 counterexample: prior record state OFFLINE with alertTs 0 and
firstDownTs 0 observed offline at now 60000 with a one minute interval.
The reminder fires, yet the persisted firstDownTs is 60000, not the prior
value 0: the record field is not left unchanged as the claim states. -/
theorem reminder_zero_firstDown_counterexample :
    (reconcile false { state := some DevState.OFFLINE, alertTs := 0, firstDownTs := 0 }
        60000 1).notification = some (AlertMessage.stillOfflineReminder 0)
    ∧ (reconcile false { state := some DevState.OFFLINE, alertTs := 0, firstDownTs := 0 }
        60000 1).newKVData.firstDownTs = 60000 := by
  constructor <;>
    · simp only [reconcile, reminderDue, jsRound]
      norm_num [Int.floor_eq_iff]

/-- C1 (amended): for a prior OFFLINE record with nonzero firstDownTs F and
last alert time A, observed offline at now, the reminder fires exactly when
now minus A is at least the reminder interval in milliseconds; firing
persists alertTs now with firstDownTs F unchanged, and otherwise the record
is unchanged and no write occurs.  With F equal to 0 the defensive fallback
of the source persists firstDownTs now instead. -/
theorem reminder_fires_iff_interval_elapsed (A F now R : Nat) (hF : F ≠ 0) :
    ((∃ m, (reconcile false { state := some DevState.OFFLINE, alertTs := A, firstDownTs := F }
        now R).notification = some (AlertMessage.stillOfflineReminder m)) ↔
      (R : ℚ) * (1000 * 60) ≤ (now : ℚ) - (A : ℚ))
    ∧ ((R : ℚ) * (1000 * 60) ≤ (now : ℚ) - (A : ℚ) →
        reconcile false { state := some DevState.OFFLINE, alertTs := A, firstDownTs := F } now R =
          { notification := some (AlertMessage.stillOfflineReminder
              (jsRound (((now : ℚ) - (F : ℚ)) / (1000 * 60))))
            newKVData := { state := some DevState.OFFLINE, alertTs := now, firstDownTs := F }
            needsKVWrite := true })
    ∧ (¬ (R : ℚ) * (1000 * 60) ≤ (now : ℚ) - (A : ℚ) →
        reconcile false { state := some DevState.OFFLINE, alertTs := A, firstDownTs := F } now R =
          { notification := none
            newKVData := { state := some DevState.OFFLINE, alertTs := A, firstDownTs := F }
            needsKVWrite := false }) := by
  by_cases h : (R : ℚ) * (1000 * 60) ≤ (now : ℚ) - (A : ℚ)
  · have ht : reminderDue now A R = true := (reminderDue_eq_true_iff now A R).mpr h
    refine ⟨⟨fun _ => h, fun _ => ?_⟩, fun _ => ?_, fun hc => absurd h hc⟩ <;>
      simp [reconcile, ht, hF]
  · have ht : reminderDue now A R = false := by
      rw [← Bool.not_eq_true, reminderDue_eq_true_iff]; exact h
    refine ⟨⟨fun ⟨m, hm⟩ => ?_, fun hc => absurd hc h⟩, fun hc => absurd hc h, fun _ => ?_⟩
    · exfalso
      rw [show (reconcile false { state := some DevState.OFFLINE, alertTs := A, firstDownTs := F }
            now R).notification = none by simp [reconcile, ht]] at hm
      exact Option.noConfusion hm
    · simp [reconcile, ht]

/-- Witness for C1 (amended) at A 0, F 1000, now 60000 and a one minute
interval: the reminder fires and keeps firstDownTs 1000. -/
theorem reminder_fires_iff_interval_elapsed_witness :
    reconcile false { state := some DevState.OFFLINE, alertTs := 0, firstDownTs := 1000 }
        60000 1 =
      { notification := some (AlertMessage.stillOfflineReminder
          (jsRound (((60000 : ℚ) - (1000 : ℚ)) / (1000 * 60))))
        newKVData := { state := some DevState.OFFLINE, alertTs := 60000, firstDownTs := 1000 }
        needsKVWrite := true } :=
  ((reminder_fires_iff_interval_elapsed 0 1000 60000 1 (by decide)).2.1 (by norm_num))

/-- C5 counterexample: from prior OFFLINE with both timestamps 1000,
observed offline at now 14401000 (1000 plus the 240 minute interval in
milliseconds), the persisted record carries alertTs 14401000, not the
15400000 of the claim. -/
theorem scenario3_alertTs_counterexample :
    (reconcile false { state := some DevState.OFFLINE, alertTs := 1000, firstDownTs := 1000 }
        14401000 240).newKVData ≠
      { state := some DevState.OFFLINE, alertTs := 15400000, firstDownTs := 1000 } := by
  simp only [reconcile, reminderDue, jsRound]
  norm_num

/-- C5 (amended): from prior OFFLINE with both timestamps 1000, observed
offline at now 14401000 with a 240 minute interval, the reminder fires and
the persisted record is OFFLINE with alertTs 14401000 (equal to now) and
firstDownTs 1000. -/
theorem scenario3_reminder :
    reconcile false { state := some DevState.OFFLINE, alertTs := 1000, firstDownTs := 1000 }
        14401000 240 =
      { notification := some (AlertMessage.stillOfflineReminder 240)
        newKVData := { state := some DevState.OFFLINE, alertTs := 14401000, firstDownTs := 1000 }
        needsKVWrite := true } := by
  simp only [reconcile, reminderDue, jsRound]
  norm_num [Int.floor_eq_iff]

/-- C7: the classifier is online exactly when the unrounded elapsed minutes
are at most the threshold, and the reported minutes are the elapsed value
rounded to the nearest whole minute (display only). -/
theorem classifier_boundary_inclusive (nowMs lastSeenMs T : ℤ) :
    ((classifyDevice nowMs lastSeenMs T).isOnline = true ↔
      minutesSinceContact nowMs lastSeenMs ≤ (T : ℚ))
    ∧ (classifyDevice nowMs lastSeenMs T).minutesSinceLastSeen =
        round (minutesSinceContact nowMs lastSeenMs) := by
  constructor
  · simp [classifyDevice]
  · simp [classifyDevice, jsRound, round_eq]

/-- C10: a request whose method is not GET is answered with status 405, an
Allow GET header and a failure body, and the response is the same for every
configuration outcome, auth header and KV content, so it is produced before
configuration loading, authentication and KV access. -/
theorem method_not_allowed_first (method : String) (xAuthToken : Option String)
    (configResult : Except String FetchConfig) (kvKeys : List String)
    (kvGet : String → Option (Except String StoredNodeState))
    (h : method ≠ "GET") :
    fetchHandler method xAuthToken configResult kvKeys kvGet =
      { status := 405
        body := { success := false, error := some "Method Not Allowed", data := none }
        contentType := "application/json"
        allow := some "GET" } := by
  simp [fetchHandler, h]

/-- Witness for C10 at a concrete POST request with failing configuration
and an empty store. -/
theorem method_not_allowed_first_witness :
    fetchHandler "POST" none (Except.error "missing setting") [] (fun _ => none) =
      { status := 405
        body := { success := false, error := some "Method Not Allowed", data := none }
        contentType := "application/json"
        allow := some "GET" } :=
  method_not_allowed_first "POST" none (Except.error "missing setting") [] (fun _ => none)
    (by decide)

/-- C3: every record the engine decides to write at a positive time now
has firstDownTs nonzero exactly when its state is OFFLINE, every written
ONLINE record has both timestamps 0, and while the prior and the written
state are both OFFLINE the persisted firstDownTs never decreases. -/
theorem written_record_invariants (isOnline : Bool) (prev : StoredNodeState) (now R : Nat)
    (hnow : 0 < now)
    (hw : (reconcile isOnline prev now R).needsKVWrite = true) :
    ((reconcile isOnline prev now R).newKVData.firstDownTs ≠ 0 ↔
      (reconcile isOnline prev now R).newKVData.state = some DevState.OFFLINE)
    ∧ ((reconcile isOnline prev now R).newKVData.state = some DevState.ONLINE →
        (reconcile isOnline prev now R).newKVData.alertTs = 0 ∧
        (reconcile isOnline prev now R).newKVData.firstDownTs = 0)
    ∧ (prev.state = some DevState.OFFLINE →
        (reconcile isOnline prev now R).newKVData.state = some DevState.OFFLINE →
        prev.firstDownTs ≤ (reconcile isOnline prev now R).newKVData.firstDownTs) := by
  have hn : now ≠ 0 := Nat.pos_iff_ne_zero.mp hnow
  cases isOnline with
  | false =>
    by_cases hS : prev.state = some DevState.OFFLINE
    · by_cases hD : reminderDue now prev.alertTs R = true
      · by_cases hF : prev.firstDownTs = 0
        · simp [reconcile, hS, hD, hF, hn]
        · simp [reconcile, hS, hD, hF]
      · simp [reconcile, hS, hD] at hw
    · simp [reconcile, hS, hn]
  | true =>
    by_cases hS : prev.state = some DevState.OFFLINE
    · simp [reconcile, hS]
    · by_cases hN : prev.state = none
      · simp [reconcile, hS, hN]
      · simp [reconcile, hS, hN] at hw

/-- Witness for C3 at the initial down transition of a device with no
stored record at now 5. -/
theorem written_record_invariants_witness :
    ((reconcile false defaultStateData 5 240).newKVData.firstDownTs ≠ 0 ↔
      (reconcile false defaultStateData 5 240).newKVData.state = some DevState.OFFLINE)
    ∧ ((reconcile false defaultStateData 5 240).newKVData.state = some DevState.ONLINE →
        (reconcile false defaultStateData 5 240).newKVData.alertTs = 0 ∧
        (reconcile false defaultStateData 5 240).newKVData.firstDownTs = 0)
    ∧ (defaultStateData.state = some DevState.OFFLINE →
        (reconcile false defaultStateData 5 240).newKVData.state = some DevState.OFFLINE →
        defaultStateData.firstDownTs ≤ (reconcile false defaultStateData 5 240).newKVData.firstDownTs) :=
  written_record_invariants false defaultStateData 5 240 (by decide) (by decide)

/-- C4: with a positive reminder interval, rerunning the decision with the
same observation, the same now and the first output record as the new prior
yields no write and no notification. -/
theorem reconcile_idempotent (isOnline : Bool) (prev : StoredNodeState) (now R : Nat)
    (hR : 0 < R) :
    (reconcile isOnline (reconcile isOnline prev now R).newKVData now R).needsKVWrite = false
    ∧ (reconcile isOnline (reconcile isOnline prev now R).newKVData now R).notification
        = none := by
  have hself : reminderDue now now R = false := reminderDue_self_of_pos now R hR
  cases isOnline with
  | false =>
    by_cases hS : prev.state = some DevState.OFFLINE
    · by_cases hD : reminderDue now prev.alertTs R = true
      · simp [reconcile, hS, hD, hself]
      · simp [reconcile, hS, hD]
    · simp [reconcile, hS, hself]
  | true =>
    by_cases hS : prev.state = some DevState.OFFLINE
    · simp [reconcile, hS]
    · by_cases hN : prev.state = none
      · simp [reconcile, hS, hN]
      · rcases hx : prev.state with _ | s
        · exact absurd hx hN
        · cases s
          · simp [reconcile, hx]
          · exact absurd hx hS

/-- Witness for C4 at the initial down transition of a device with no
stored record at now 5 and a 240 minute interval. -/
theorem reconcile_idempotent_witness :
    (reconcile false (reconcile false defaultStateData 5 240).newKVData 5 240).needsKVWrite = false
    ∧ (reconcile false (reconcile false defaultStateData 5 240).newKVData 5 240).notification
        = none :=
  reconcile_idempotent false defaultStateData 5 240 (by decide)

/-! Concrete fixtures used by the scheduled loop claims. -/

/-- Device whose stored record fails to load in the fixtures below. -/
def corruptDevice : TailscaleDevice :=
  { id := "A", name := "alpha.example.ts.net", tags := [], isOnline := false }

/-- Healthy offline device with no stored record in the fixtures below. -/
def healthyDevice : TailscaleDevice :=
  { id := "B", name := "beta.example.ts.net", tags := [], isOnline := false }

/-- KV store whose record for corruptDevice throws on read or parse and
which is empty otherwise. -/
def corruptReadKV : String → Except String (Option StoredNodeState) :=
  fun key => if key = "node:A:alpha" then Except.error "Unexpected token o in JSON"
             else Except.ok none

/-- Scheduled configuration with no tag filter. -/
def plainConfig : SchedConfig :=
  { monitorTags := [], reminderIntervalMinutes := 240
    telegramBotToken := "token", telegramChatId := "chat" }

/-- Delivery environment where every Telegram call succeeds. -/
def okDeliver : AlertMessage → TgFetchOutcome :=
  fun _ => TgFetchOutcome.response { ok := true, description := "", errorCode := 0 }

/-- C6 counterexample: with the corrupt record first in the list, the whole
cycle trace is one read and one worker error notification.  The healthy
device is never read, alerted or written, and the corrupt device does not
degrade to a first sighting alert: the cycle aborts. -/
theorem corrupt_record_aborts_cycle_counterexample :
    runDeviceLoop plainConfig corruptReadKV okDeliver 1000 [corruptDevice, healthyDevice] =
      [CycleEvent.kvRead "node:A:alpha",
       CycleEvent.notifySent AlertMessage.workerError { success := true, error := none }] := by
  decide

/-- C6 (amended): a store read or parse error on one device is not handled
inside the loop: it propagates to the cycle level catch handler, which
sends a single worker error notification, and no remaining device of the
list is processed. -/
theorem store_error_aborts_cycle (config : SchedConfig)
    (kv : String → Except String (Option StoredNodeState))
    (deliver : AlertMessage → TgFetchOutcome) (now : Nat) (d : TailscaleDevice)
    (rest : List TailscaleDevice) (msg : String)
    (hpass : passesTagFilter config.monitorTags d = true)
    (herr : kv (nodeKvKey d) = Except.error msg) :
    runDeviceLoop config kv deliver now (d :: rest) =
      [CycleEvent.kvRead (nodeKvKey d),
       CycleEvent.notifySent AlertMessage.workerError
         (sendTelegramNotification (messageFor AlertMessage.workerError)
           config.telegramBotToken config.telegramChatId
           (deliver AlertMessage.workerError))] := by
  simp [runDeviceLoop, hpass, herr]

/-- Witness for C6 (amended) at the concrete fixtures. -/
theorem store_error_aborts_cycle_witness :
    runDeviceLoop plainConfig corruptReadKV okDeliver 1000 [corruptDevice, healthyDevice] =
      [CycleEvent.kvRead (nodeKvKey corruptDevice),
       CycleEvent.notifySent AlertMessage.workerError
         (sendTelegramNotification (messageFor AlertMessage.workerError)
           plainConfig.telegramBotToken plainConfig.telegramChatId
           (okDeliver AlertMessage.workerError))] :=
  store_error_aborts_cycle plainConfig corruptReadKV okDeliver 1000 corruptDevice
    [healthyDevice] "Unexpected token o in JSON" (by decide) (by rfl)

/-- Scheduled configuration requiring the critical tag, as in the tag
filter scenario of the spec. -/
def tagConfig : SchedConfig :=
  { monitorTags := ["tag:critical"], reminderIntervalMinutes := 240
    telegramBotToken := "token", telegramChatId := "chat" }

/-- Device carrying only an unmonitored tag. -/
def otherTagDevice : TailscaleDevice :=
  { id := "C", name := "gamma.example.ts.net", tags := ["tag:other"], isOnline := false }

/-- C8: with an empty configured tag list every device passes the filter;
with a nonempty list a device passes exactly when one of its tags is
configured; and a device that fails the filter contributes no event at all
to the cycle, so no store read, no write and no notification. -/
theorem tag_filter_correct (config : SchedConfig) (d : TailscaleDevice)
    (kv : String → Except String (Option StoredNodeState))
    (deliver : AlertMessage → TgFetchOutcome) (now : Nat) (rest : List TailscaleDevice) :
    (config.monitorTags = [] → passesTagFilter config.monitorTags d = true)
    ∧ (config.monitorTags ≠ [] →
        (passesTagFilter config.monitorTags d = true ↔
          ∃ t ∈ d.tags, t ∈ config.monitorTags))
    ∧ (passesTagFilter config.monitorTags d = false →
        runDeviceLoop config kv deliver now (d :: rest) =
          runDeviceLoop config kv deliver now rest) := by
  refine ⟨fun h => by simp [passesTagFilter, h],
          fun h => ?_,
          fun h => by simp [runDeviceLoop, h]⟩
  have hlen : 0 < config.monitorTags.length := List.length_pos.mpr h
  simp [passesTagFilter, hlen, deviceHasRequiredTag, List.any_eq_true]

/-- Witness for C8: the empty filter admits a tagless device, the critical
filter rejects the device with only the other tag, and that device leaves
the cycle trace of the remaining list unchanged. -/
theorem tag_filter_correct_witness :
    passesTagFilter plainConfig.monitorTags healthyDevice = true
    ∧ (passesTagFilter tagConfig.monitorTags otherTagDevice = true ↔
        ∃ t ∈ otherTagDevice.tags, t ∈ tagConfig.monitorTags)
    ∧ runDeviceLoop tagConfig corruptReadKV okDeliver 1000 [otherTagDevice] =
        runDeviceLoop tagConfig corruptReadKV okDeliver 1000 [] :=
  ⟨(tag_filter_correct plainConfig healthyDevice corruptReadKV okDeliver 1000 []).1 rfl,
   (tag_filter_correct tagConfig otherTagDevice corruptReadKV okDeliver 1000 []).2.1
     (by decide),
   (tag_filter_correct tagConfig otherTagDevice corruptReadKV okDeliver 1000 []).2.2
     (by decide)⟩

/-- Distribution of the write projection over trace concatenation. -/
theorem writesOf_append (a b : List CycleEvent) :
    writesOf (a ++ b) = writesOf a ++ writesOf b := by
  unfold writesOf
  exact List.filterMap_append a b _

/-- KV writes emitted for one device do not depend on the delivery
environment: the notifySent payload is the only part that differs. -/
theorem writesOf_deviceEvents (config : SchedConfig)
    (deliver₁ deliver₂ : AlertMessage → TgFetchOutcome) (now : Nat)
    (d : TailscaleDevice) (stored : Option StoredNodeState) :
    writesOf (deviceEvents config deliver₁ now d stored) =
      writesOf (deviceEvents config deliver₂ now d stored) := by
  unfold deviceEvents writesOf
  cases h : (reconcile d.isOnline (stored.getD defaultStateData) now
      config.reminderIntervalMinutes).notification <;> simp [h]

/-- C9: the notifier returns a result object on every path, an error string
accompanying every failure, and the KV writes of a scheduled cycle are the
same whatever the delivery outcomes are, so a delivery failure never
prevents the subsequent write of the computed record. -/
theorem notifier_total_and_writes_independent :
    (∀ (messageText botToken chatId : String) (net : TgFetchOutcome),
      (sendTelegramNotification messageText botToken chatId net).success = true
      ∨ ((sendTelegramNotification messageText botToken chatId net).success = false
         ∧ (sendTelegramNotification messageText botToken chatId net).error.isSome = true))
    ∧ (∀ (config : SchedConfig) (kv : String → Except String (Option StoredNodeState))
        (deliver₁ deliver₂ : AlertMessage → TgFetchOutcome) (now : Nat)
        (devices : List TailscaleDevice),
        writesOf (runDeviceLoop config kv deliver₁ now devices) =
          writesOf (runDeviceLoop config kv deliver₂ now devices)) := by
  constructor
  · intro messageText botToken chatId net
    by_cases hb : botToken = "" ∨ chatId = ""
    · right
      simp [sendTelegramNotification, hb]
    · rcases net with m | r
      · right
        simp [sendTelegramNotification, hb]
      · by_cases hok : r.ok = false
        · right
          simp [sendTelegramNotification, hb, hok]
        · left
          simp [sendTelegramNotification, hb, hok]
  · intro config kv deliver₁ deliver₂ now devices
    induction devices with
    | nil => rfl
    | cons d rest ih =>
      by_cases hp : passesTagFilter config.monitorTags d = true
      · cases hk : kv (nodeKvKey d) with
        | error e => simp [runDeviceLoop, hp, hk, writesOf]
        | ok stored =>
            simp [runDeviceLoop, hp, hk, writesOf_append, ih,
              writesOf_deviceEvents config deliver₁ deliver₂ now d stored]
      · simp [runDeviceLoop, hp, ih]

/-- Witness for C9: the failing delivery of a missing bot token carries an
error string, and the writes of the two device fixture cycle agree between
an always failing and an always succeeding delivery environment. -/
theorem notifier_total_and_writes_independent_witness :
    ((sendTelegramNotification "OFFLINE" "" "chat" (TgFetchOutcome.rejected "boom")).success = true
     ∨ ((sendTelegramNotification "OFFLINE" "" "chat" (TgFetchOutcome.rejected "boom")).success = false
        ∧ (sendTelegramNotification "OFFLINE" "" "chat"
            (TgFetchOutcome.rejected "boom")).error.isSome = true))
    ∧ writesOf (runDeviceLoop plainConfig corruptReadKV
          (fun _ => TgFetchOutcome.rejected "boom") 1000 [corruptDevice, healthyDevice]) =
        writesOf (runDeviceLoop plainConfig corruptReadKV okDeliver 1000
          [corruptDevice, healthyDevice]) :=
  ⟨notifier_total_and_writes_independent.1 "OFFLINE" "" "chat" (TgFetchOutcome.rejected "boom"),
   notifier_total_and_writes_independent.2 plainConfig corruptReadKV
     (fun _ => TgFetchOutcome.rejected "boom") okDeliver 1000 [corruptDevice, healthyDevice]⟩

end TailscaleMonitor
